import Mathlib

/-!
Verification of the scrcap screen-capture engine against its design
specification.  The Rust sources are embedded shallowly: pure pixel
conversion becomes functions over byte lists (bytes as `Nat < 256`),
the event-driven wait loop becomes a function over a finite trace of
delivered notifications, and the shared-memory fallback loop becomes a
function over a finite list of open-attempt outcomes.
-/

namespace Scrcap

/-- Embeds `FrameFormat` from `src/platform/mod.rs` (the six compositor
buffer layouts the program understands). -/
inductive FrameFormat
  | Xbgr2101010
  | Xrgb8888
  | Xbgr8888
  | Abgr2101010
  | Abgr8888
  | Argb8888
deriving DecidableEq

/-- Embeds `FrameDescription` from `src/platform/mod.rs`: one buffer-format
advertisement (format, width, height, stride). -/
structure FrameDescription where
  format : FrameFormat
  width : Nat
  height : Nat
  stride : Nat
deriving DecidableEq

/-- Embeds the `image::ColorType` values this program produces. -/
inductive ColorType
  | Rgba8
  | Rgb8
deriving DecidableEq

/-- The three converter implementations behind `create_converter`
in `src/convert.rs`. -/
inductive Converter
  | ConvertNone
  | ConvertRGB8
  | ConvertBGR10
deriving DecidableEq

/-- Embeds `create_converter` from `src/convert.rs`. -/
def create_converter : FrameFormat → Converter
  | FrameFormat.Xbgr8888 => Converter.ConvertNone
  | FrameFormat.Abgr8888 => Converter.ConvertNone
  | FrameFormat.Xrgb8888 => Converter.ConvertRGB8
  | FrameFormat.Argb8888 => Converter.ConvertRGB8
  | FrameFormat.Xbgr2101010 => Converter.ConvertBGR10
  | FrameFormat.Abgr2101010 => Converter.ConvertBGR10

/-- Embeds `SHIFT10BITS_1` from `src/convert.rs`. -/
def SHIFT10BITS_1 : Nat := 20

/-- Embeds `SHIFT10BITS_2` from `src/convert.rs`. -/
def SHIFT10BITS_2 : Nat := 10

/-- Embeds `convert10_to_8` from `src/convert.rs`:
`((color >> 2) & 255) as u8`. -/
def convert10_to_8 (color : Nat) : Nat := (color >>> 2) &&& 255

/-- Embeds the pixel word assembly in `ConvertBGR10::convert_inplace`:
`((chunk[3] as u32) << 24) | ((chunk[2] as u32) << 16) | ((chunk[1] as u32) << 8) | chunk[0]`. -/
def pixelWord (b0 b1 b2 b3 : Nat) : Nat :=
  (b3 <<< 24) ||| (b2 <<< 16) ||| (b1 <<< 8) ||| b0

/-- Embeds the `chunks_exact_mut(4)` loop of `ConvertRGB8::convert_inplace`
(`chunk.swap(0, 2)` on each aligned 4-byte pixel; a trailing remainder of
fewer than 4 bytes is left untouched, as `chunks_exact_mut` skips it). -/
def ConvertRGB8.swapLoop : List Nat → List Nat
  | b0 :: b1 :: b2 :: b3 :: rest => b2 :: b1 :: b0 :: b3 :: ConvertRGB8.swapLoop rest
  | rest => rest

/-- Embeds the `chunks_exact_mut(4)` loop of `ConvertBGR10::convert_inplace`:
each pixel is rewritten to `[b, g, r, 255]` with
`b = convert10_to_8 pixel`, `g = convert10_to_8 (pixel >> 10)`,
`r = convert10_to_8 (pixel >> 20)`. -/
def ConvertBGR10.bgrLoop : List Nat → List Nat
  | b0 :: b1 :: b2 :: b3 :: rest =>
      convert10_to_8 (pixelWord b0 b1 b2 b3) ::
      convert10_to_8 (pixelWord b0 b1 b2 b3 >>> SHIFT10BITS_2) ::
      convert10_to_8 (pixelWord b0 b1 b2 b3 >>> SHIFT10BITS_1) ::
      255 :: ConvertBGR10.bgrLoop rest
  | rest => rest

/-- Embeds `Convert::convert_inplace` for each converter implementation in
`src/convert.rs`; every implementation returns `ColorType::Rgba8` together
with the rewritten buffer. -/
def convert_inplace : Converter → List Nat → ColorType × List Nat
  | Converter.ConvertNone, data => (ColorType.Rgba8, data)
  | Converter.ConvertRGB8, data => (ColorType.Rgba8, ConvertRGB8.swapLoop data)
  | Converter.ConvertBGR10, data => (ColorType.Rgba8, ConvertBGR10.bgrLoop data)

/-! Specification-side rendering of the packed 10-bit conversion, written
from the claim's words: assemble the 4 bytes little-endian into a word,
extract the 10-bit channel at each bit offset (mask `0x3FF`), reduce a
channel to 8 bits by `(c >> 2) & 255`, and write back
`[channel at 0, channel at 10, channel at 20, 255]`. -/

/-- The claim's little-endian word: `b0 + b1·2^8 + b2·2^16 + b3·2^24`. -/
def specWord (b0 b1 b2 b3 : Nat) : Nat :=
  b0 + b1 * 256 + b2 * 65536 + b3 * 16777216

/-- The claim's 10-bit channel extraction at a bit offset. -/
def specChannel (w off : Nat) : Nat := (w >>> off) &&& 1023

/-- The claim's 10-to-8-bit reduction `(c >> 2) & 255`. -/
def specReduce (c : Nat) : Nat := (c >>> 2) &&& 255

/-- The claim's per-pixel rewrite for the packed 10-bit formats. -/
def specBGR10 : List Nat → List Nat
  | b0 :: b1 :: b2 :: b3 :: rest =>
      specReduce (specChannel (specWord b0 b1 b2 b3) 0) ::
      specReduce (specChannel (specWord b0 b1 b2 b3) 10) ::
      specReduce (specChannel (specWord b0 b1 b2 b3) 20) ::
      255 :: specBGR10 rest
  | rest => rest

/-! Bit-arithmetic bridge lemmas. -/

/-- Disjoint bitwise OR is addition: if the low `k` bits of `a` are zero
and `b` fits in `k` bits then `a ||| b = a + b`. -/
theorem lor_eq_add_of_disjoint (k a b : Nat) (ha : a % 2 ^ k = 0) (hb : b < 2 ^ k) :
    a ||| b = a + b := by
  obtain ⟨c, rfl⟩ : 2 ^ k ∣ a := Nat.dvd_of_mod_eq_zero ha
  apply Nat.eq_of_testBit_eq
  intro i
  rw [Nat.testBit_or, Nat.testBit_mul_pow_two_add c hb i, Nat.testBit_mul_pow_two]
  by_cases h : i < k
  · simp [h, Nat.not_le.mpr h]
  · have hk : k ≤ i := Nat.le_of_not_lt h
    have hb' : b < 2 ^ i := lt_of_lt_of_le hb (Nat.pow_le_pow_right (by norm_num) hk)
    simp [h, hk, Nat.testBit_lt_two_pow hb']

/-- The assembled pixel word equals the little-endian byte sum when every
byte is below 256. -/
theorem pixelWord_eq_specWord (b0 b1 b2 b3 : Nat)
    (h0 : b0 < 256) (h1 : b1 < 256) (h2 : b2 < 256) ( _h3 : b3 < 256) :
    pixelWord b0 b1 b2 b3 = specWord b0 b1 b2 b3 := by
  unfold pixelWord specWord
  rw [Nat.shiftLeft_eq, Nat.shiftLeft_eq, Nat.shiftLeft_eq]
  norm_num
  rw [lor_eq_add_of_disjoint 24 (b3 * 16777216) (b2 * 65536) (by omega) (by norm_num; omega)]
  rw [lor_eq_add_of_disjoint 16 (b3 * 16777216 + b2 * 65536) (b1 * 256) (by omega)
    (by norm_num; omega)]
  rw [lor_eq_add_of_disjoint 8 (b3 * 16777216 + b2 * 65536 + b1 * 256) b0 (by omega)
    (by norm_num; omega)]
  omega

/-- Reducing a channel without first masking it to 10 bits (as the code
does) gives the same byte as masking first (as the claim states): the
`&&& 255` after the shift discards exactly the bits above the channel. -/
theorem reduce_shift_eq_reduce_mask (v : Nat) :
    (v >>> 2) &&& 255 = ((v &&& 1023) >>> 2) &&& 255 := by
  have hm := Nat.and_pow_two_sub_one_eq_mod v 10
  norm_num at hm
  rw [hm]
  have ha := Nat.and_pow_two_sub_one_eq_mod (v >>> 2) 8
  have hb := Nat.and_pow_two_sub_one_eq_mod ((v % 1024) >>> 2) 8
  norm_num at ha hb
  rw [ha, hb, Nat.shiftRight_eq_div_pow, Nat.shiftRight_eq_div_pow]
  norm_num
  omega

/-- Per-chunk agreement of the coded 10-bit conversion with the claim's
formulation, for bytes below 256. -/
theorem bgr10_chunk_eq (b0 b1 b2 b3 : Nat)
    (h0 : b0 < 256) (h1 : b1 < 256) (h2 : b2 < 256) (h3 : b3 < 256) :
    convert10_to_8 (pixelWord b0 b1 b2 b3) =
        specReduce (specChannel (specWord b0 b1 b2 b3) 0) ∧
      convert10_to_8 (pixelWord b0 b1 b2 b3 >>> SHIFT10BITS_2) =
        specReduce (specChannel (specWord b0 b1 b2 b3) 10) ∧
      convert10_to_8 (pixelWord b0 b1 b2 b3 >>> SHIFT10BITS_1) =
        specReduce (specChannel (specWord b0 b1 b2 b3) 20) := by
  rw [pixelWord_eq_specWord b0 b1 b2 b3 h0 h1 h2 h3]
  unfold convert10_to_8 specReduce specChannel SHIFT10BITS_1 SHIFT10BITS_2
  refine ⟨?_, ?_, ?_⟩
  · rw [Nat.shiftRight_zero]
    exact reduce_shift_eq_reduce_mask (specWord b0 b1 b2 b3)
  · exact reduce_shift_eq_reduce_mask (specWord b0 b1 b2 b3 >>> 10)
  · exact reduce_shift_eq_reduce_mask (specWord b0 b1 b2 b3 >>> 20)

/-- The whole-buffer 10-bit conversion agrees with the claim's
formulation on buffers of bytes below 256. -/
theorem bgrLoop_eq_specBGR10 :
    ∀ (data : List Nat), (∀ b ∈ data, b < 256) →
      ConvertBGR10.bgrLoop data = specBGR10 data
  | [], _ => rfl
  | [b0], _ => rfl
  | [b0, b1], _ => rfl
  | [b0, b1, b2], _ => rfl
  | b0 :: b1 :: b2 :: b3 :: rest, h => by
      have h0 : b0 < 256 := h b0 (by simp)
      have h1 : b1 < 256 := h b1 (by simp)
      have h2 : b2 < 256 := h b2 (by simp)
      have h3 : b3 < 256 := h b3 (by simp)
      have hrest : ∀ b ∈ rest, b < 256 := fun b hb => h b (by simp [hb])
      obtain ⟨e1, e2, e3⟩ := bgr10_chunk_eq b0 b1 b2 b3 h0 h1 h2 h3
      simp only [ConvertBGR10.bgrLoop, specBGR10, e1, e2, e3,
        bgrLoop_eq_specBGR10 rest hrest]

/-- Length preservation of the R/B swap loop. -/
theorem swapLoop_length :
    ∀ (data : List Nat), (ConvertRGB8.swapLoop data).length = data.length
  | [] => rfl
  | [_] => rfl
  | [_, _] => rfl
  | [_, _, _] => rfl
  | _ :: _ :: _ :: _ :: rest => by
      simp only [ConvertRGB8.swapLoop, List.length_cons, swapLoop_length rest]

/-- Length preservation of the 10-bit conversion loop. -/
theorem bgrLoop_length :
    ∀ (data : List Nat), (ConvertBGR10.bgrLoop data).length = data.length
  | [] => rfl
  | [_] => rfl
  | [_, _] => rfl
  | [_, _, _] => rfl
  | _ :: _ :: _ :: _ :: rest => by
      simp only [ConvertBGR10.bgrLoop, List.length_cons, bgrLoop_length rest]

/-- The swap loop is an involution. -/
theorem swapLoop_involutive :
    ∀ (data : List Nat), ConvertRGB8.swapLoop (ConvertRGB8.swapLoop data) = data
  | [] => rfl
  | [_] => rfl
  | [_, _] => rfl
  | [_, _, _] => rfl
  | b0 :: b1 :: b2 :: b3 :: rest => by
      simp only [ConvertRGB8.swapLoop, swapLoop_involutive rest]

/-- Pointwise description of the swap loop: on each aligned 4-byte pixel
it swaps bytes 0 and 2 and keeps bytes 1 and 3. -/
theorem swapLoop_pointwise :
    ∀ (data : List Nat) (i : Nat), 4 * i + 3 < data.length →
      (ConvertRGB8.swapLoop data)[4 * i]? = data[4 * i + 2]? ∧
      (ConvertRGB8.swapLoop data)[4 * i + 1]? = data[4 * i + 1]? ∧
      (ConvertRGB8.swapLoop data)[4 * i + 2]? = data[4 * i]? ∧
      (ConvertRGB8.swapLoop data)[4 * i + 3]? = data[4 * i + 3]?
  | [], i, h => by simp at h
  | [_], i, h => by simp only [List.length_cons, List.length_nil] at h; omega
  | [_, _], i, h => by simp only [List.length_cons, List.length_nil] at h; omega
  | [_, _, _], i, h => by simp only [List.length_cons, List.length_nil] at h; omega
  | b0 :: b1 :: b2 :: b3 :: rest, 0, _ => by
      simp [ConvertRGB8.swapLoop]
  | b0 :: b1 :: b2 :: b3 :: rest, i + 1, h => by
      have h' : 4 * i + 3 < rest.length := by simp at h; omega
      obtain ⟨e0, e1, e2, e3⟩ := swapLoop_pointwise rest i h'
      have k0 : 4 * (i + 1) = (4 * i) + 4 := by ring
      have k1 : 4 * (i + 1) + 1 = (4 * i + 1) + 4 := by ring
      have k2 : 4 * (i + 1) + 2 = (4 * i + 2) + 4 := by ring
      have k3 : 4 * (i + 1) + 3 = (4 * i + 3) + 4 := by ring
      simp only [ConvertRGB8.swapLoop, k0, k1, k2, k3]
      simp only [show ∀ n : Nat, n + 4 = n + 1 + 1 + 1 + 1 from fun n => by ring,
        List.getElem?_cons_succ]
      exact ⟨e0, e1, e2, e3⟩

/-- Claim C3: for every buffer whose length is a multiple of 4 (bytes
below 256) and both packed 10-bit formats, the converter rewrites each
4-byte pixel by assembling the little-endian 32-bit word, extracting the
10-bit channels at bit offsets 20, 10, 0, reducing each to 8 bits by
`(c >> 2) & 255`, and writing back bytes `[ch0, ch10, ch20, 255]`;
moreover a channel value `0b1111111111` at bit 20 truncates to 255 and
`0b0000000001` at bit 20 truncates to 0. -/
theorem convert_bgr10_matches_spec :
    (∀ (data : List Nat), (∀ b ∈ data, b < 256) → data.length % 4 = 0 →
       (convert_inplace (create_converter FrameFormat.Xbgr2101010) data).2 = specBGR10 data ∧
       (convert_inplace (create_converter FrameFormat.Abgr2101010) data).2 = specBGR10 data) ∧
    ConvertBGR10.bgrLoop [0, 0, 240, 63] = [0, 0, 255, 255] ∧
    ConvertBGR10.bgrLoop [0, 0, 16, 0] = [0, 0, 0, 255] := by
  refine ⟨fun data h _ => ?_, by decide, by decide⟩
  simp only [create_converter, convert_inplace]
  exact ⟨bgrLoop_eq_specBGR10 data h, bgrLoop_eq_specBGR10 data h⟩

/-- Witness for C3 at the concrete buffer `[0, 0, 240, 63]`
(the word `0x3FF00000`, channel `0b1111111111` at bit 20). -/
theorem convert_bgr10_matches_spec_witness :
    (convert_inplace (create_converter FrameFormat.Xbgr2101010) [0, 0, 240, 63]).2 =
      specBGR10 [0, 0, 240, 63] :=
  (convert_bgr10_matches_spec.1 [0, 0, 240, 63] (by decide) (by decide)).1

/-- Claim C4: for the byte-swapped 8-bit formats (Xrgb8888, Argb8888) the
converter swaps byte 0 and byte 2 of every aligned 4-byte pixel and keeps
bytes 1 and 3; the pixel `[0x10, 0x20, 0x30, 0x40]` becomes
`[0x30, 0x20, 0x10, 0x40]`. -/
theorem convert_rgb8_swaps_bytes :
    (∀ (fmt : FrameFormat) (data : List Nat) (i : Nat),
       (fmt = FrameFormat.Xrgb8888 ∨ fmt = FrameFormat.Argb8888) →
       4 * i + 3 < data.length →
       ((convert_inplace (create_converter fmt) data).2)[4 * i]? = data[4 * i + 2]? ∧
       ((convert_inplace (create_converter fmt) data).2)[4 * i + 1]? = data[4 * i + 1]? ∧
       ((convert_inplace (create_converter fmt) data).2)[4 * i + 2]? = data[4 * i]? ∧
       ((convert_inplace (create_converter fmt) data).2)[4 * i + 3]? = data[4 * i + 3]?) ∧
    (convert_inplace (create_converter FrameFormat.Xrgb8888) [0x10, 0x20, 0x30, 0x40]).2 =
      [0x30, 0x20, 0x10, 0x40] := by
  constructor
  · rintro fmt data i (rfl | rfl) h <;>
      simpa only [create_converter, convert_inplace] using swapLoop_pointwise data i h
  · decide

/-- Witness for C4 at format Xrgb8888, buffer `[16, 32, 48, 64]`, pixel 0. -/
theorem convert_rgb8_swaps_bytes_witness :
    ((convert_inplace (create_converter FrameFormat.Xrgb8888) [16, 32, 48, 64]).2)[0]? =
      [16, 32, 48, 64][2]? :=
  (convert_rgb8_swaps_bytes.1 FrameFormat.Xrgb8888 [16, 32, 48, 64] 0
    (Or.inl rfl) (by decide)).1

/-- Claim C5: for every supported format the converter returns color tag
RGBA8 and preserves the buffer length; for the identity formats Xbgr8888
and Abgr8888 the contents are unchanged as well. -/
theorem converter_rgba8_length_invariant :
    ∀ (fmt : FrameFormat) (data : List Nat),
      (convert_inplace (create_converter fmt) data).1 = ColorType.Rgba8 ∧
      ((convert_inplace (create_converter fmt) data).2).length = data.length ∧
      ((fmt = FrameFormat.Xbgr8888 ∨ fmt = FrameFormat.Abgr8888) →
        (convert_inplace (create_converter fmt) data).2 = data) := by
  intro fmt data
  cases fmt <;>
    simp [create_converter, convert_inplace, swapLoop_length, bgrLoop_length]

/-- Witness for C5 at format Abgr8888 (identity) and buffer `[7, 8, 9, 10]`. -/
theorem converter_rgba8_length_invariant_witness :
    (convert_inplace (create_converter FrameFormat.Abgr8888) [7, 8, 9, 10]).2 =
      [7, 8, 9, 10] :=
  (converter_rgba8_length_invariant FrameFormat.Abgr8888 [7, 8, 9, 10]).2.2 (Or.inr rfl)

/-- Claim C10: the R/B-swap converter used for Xrgb8888 and Argb8888 is an
involution — applying `convert_inplace` twice restores the buffer. -/
theorem convert_rgb8_involution :
    ∀ (data : List Nat),
      (convert_inplace (create_converter FrameFormat.Xrgb8888)
          ((convert_inplace (create_converter FrameFormat.Xrgb8888) data).2)).2 = data ∧
      (convert_inplace (create_converter FrameFormat.Argb8888)
          ((convert_inplace (create_converter FrameFormat.Argb8888) data).2)).2 = data := by
  intro data
  simp only [create_converter, convert_inplace]
  exact ⟨swapLoop_involutive data, swapLoop_involutive data⟩

/-! Format selection (`capture_frame` in `src/platform/sway.rs` and
`screenshot` in `src/screenshot/wayland.rs`). -/

/-- Embeds the `matches!` filter used to select a frame format in
`capture_frame` (src/platform/sway.rs lines 276-289); note the source
filter lists only five formats — `Abgr8888` falls through to `false`. -/
def isSelectableFormat : FrameFormat → Bool
  | FrameFormat.Xbgr2101010 => true
  | FrameFormat.Abgr2101010 => true
  | FrameFormat.Argb8888 => true
  | FrameFormat.Xrgb8888 => true
  | FrameFormat.Xbgr8888 => true
  | FrameFormat.Abgr8888 => false

/-- Embeds `frame_formats.iter().find(..)` from `capture_frame`: the first
advertised descriptor passing the filter, in advertisement order. -/
def selectFrameFormat (formats : List FrameDescription) : Option FrameDescription :=
  formats.find? (fun d => isSelectableFormat d.format)

/-- Claim C1 (code bug evidence): the selection filter rejects `Abgr8888`,
so any descriptor can be selected only with a format in the five-format
filter set, and an advertisement consisting solely of an `Abgr8888`
descriptor fails the selection — even though `create_converter` fully
supports `Abgr8888` (as the identity conversion with tag RGBA8). -/
theorem selection_omits_abgr8888 :
    (∀ (descs : List FrameDescription) (d : FrameDescription),
       selectFrameFormat descs = some d → isSelectableFormat d.format = true) ∧
    isSelectableFormat FrameFormat.Abgr8888 = false ∧
    selectFrameFormat [⟨FrameFormat.Abgr8888, 1920, 1080, 7680⟩] = none ∧
    create_converter FrameFormat.Abgr8888 = Converter.ConvertNone ∧
    (convert_inplace (create_converter FrameFormat.Abgr8888) [1, 2, 3, 4]).1 =
      ColorType.Rgba8 := by
  refine ⟨fun descs d h => by simpa using List.find?_some h, rfl, rfl, rfl, rfl⟩

/-- Witness for C1: the selection filter accepts the concrete Xrgb8888
descriptor it returns. -/
theorem selection_omits_abgr8888_witness :
    isSelectableFormat (FrameDescription.mk FrameFormat.Xrgb8888 1920 1080 7680).format =
      true :=
  selection_omits_abgr8888.1 [FrameDescription.mk FrameFormat.Xrgb8888 1920 1080 7680]
    (FrameDescription.mk FrameFormat.Xrgb8888 1920 1080 7680) rfl

/-! Wire-format conversion (`impl From<wl_shm::Format> for FrameFormat` in
`src/platform/sway.rs` lines 367-379). -/

/-- A sample of the `wl_shm::Format` wire enumeration: the six values the
program converts, plus representative values outside that set. -/
inductive WlShmFormat
  | Argb8888
  | Xrgb8888
  | Abgr8888
  | Xbgr8888
  | Abgr2101010
  | Xbgr2101010
  | Argb2101010
  | Xrgb2101010
  | Rgba8888
  | Bgra8888
  | Rgb888
  | Bgr888
  | Rgb565
  | C8
deriving DecidableEq

/-- Embeds `From<wl_shm::Format> for FrameFormat`: the wildcard arm of the
source raises the panic "Unsupported wl_shm frame format", modelled here
as `none`. -/
def frameFormatOfWlShm : WlShmFormat → Option FrameFormat
  | WlShmFormat.Xbgr2101010 => some FrameFormat.Xbgr2101010
  | WlShmFormat.Xrgb8888 => some FrameFormat.Xrgb8888
  | WlShmFormat.Xbgr8888 => some FrameFormat.Xbgr8888
  | WlShmFormat.Abgr2101010 => some FrameFormat.Abgr2101010
  | WlShmFormat.Abgr8888 => some FrameFormat.Abgr8888
  | WlShmFormat.Argb8888 => some FrameFormat.Argb8888
  | _ => none

/-- Embeds the `Event::Buffer` arm of the frame event handler in
`capture_frame`: push a `FrameDescription` built with `format.into()` onto
the advertisement list; if the conversion panics (wildcard arm), the
handler crashes and no list results — modelled as `none`. -/
def handleBufferEvent (wire : WlShmFormat) (width height stride : Nat)
    (acc : List FrameDescription) : Option (List FrameDescription) :=
  match frameFormatOfWlShm wire with
  | some f => some (acc ++ [⟨f, width, height, stride⟩])
  | none => none

/-- Counterexample for claim C2: a buffer advertisement carrying the wire
format `Rgba8888` (outside the six supported values) hits the panic arm of
the conversion — the handler crashes instead of producing an
unsupported-format error result. -/
theorem wl_format_unknown_panics :
    handleBufferEvent WlShmFormat.Rgba8888 16 16 64 [] = none ∧
    frameFormatOfWlShm WlShmFormat.Rgba8888 = none := ⟨rfl, rfl⟩

/-- Claim C2 (amended): processing a buffer advertisement panics (does not
yield an error result) exactly when the wire format is outside the six
supported values; the unsupported-format error arises only later, from the
selection filter, when every advertised format converts but none passes. -/
theorem wl_format_panic_iff_out_of_set :
    ∀ (wire : WlShmFormat) (w h s : Nat) (acc : List FrameDescription),
      (handleBufferEvent wire w h s acc = none ↔ frameFormatOfWlShm wire = none) ∧
      (frameFormatOfWlShm wire = none ↔
        (wire ≠ WlShmFormat.Xbgr2101010 ∧ wire ≠ WlShmFormat.Xrgb8888 ∧
         wire ≠ WlShmFormat.Xbgr8888 ∧ wire ≠ WlShmFormat.Abgr2101010 ∧
         wire ≠ WlShmFormat.Abgr8888 ∧ wire ≠ WlShmFormat.Argb8888)) := by
  intro wire w h s acc
  cases wire <;> simp [handleBufferEvent, frameFormatOfWlShm]

/-- Witness for C2's amended theorem at the wire format `C8`. -/
theorem wl_format_panic_iff_out_of_set_witness :
    handleBufferEvent WlShmFormat.C8 1 1 1 [] = none :=
  (wl_format_panic_iff_out_of_set WlShmFormat.C8 1 1 1 []).1.mpr rfl

/-! The terminal-state wait (`read_frame` / `try_read_frame` in
`src/platform/sway.rs` lines 400-451). -/

/-- Embeds `FrameState` from `src/platform/sway.rs`. -/
inductive FrameState
  | Failed
  | Finished
deriving DecidableEq

/-- Embeds `ReadFrameError` from `src/platform/sway.rs`; `FrameCopy` is
the spec's `CaptureFailed` ("Could not copy frame from compositor to
client"). -/
inductive ReadFrameError
  | FrameCopy
deriving DecidableEq

/-- Embeds `Frame` from `src/platform/mod.rs` (the mmap contents as a
byte list). -/
structure Frame where
  frame_format : FrameDescription
  frame_color_type : ColorType
  frame_mmap : List Nat
deriving DecidableEq

/-- Embeds `try_read_frame`: take the frame state; on `Failed` bail with
`ReadFrameError::FrameCopy`; on `Finished` map the memory, run the
converter in place and build the `Frame`; on no state yet, yield nothing
so the caller keeps looping. -/
def try_read_frame (frame_state : Option FrameState) (frame_format : FrameDescription)
    (mem_file : List Nat) : Except ReadFrameError (Option Frame) :=
  match frame_state with
  | some FrameState.Failed => Except.error ReadFrameError.FrameCopy
  | some FrameState.Finished =>
      Except.ok (some
        { frame_format := frame_format
          frame_color_type := (convert_inplace (create_converter frame_format.format) mem_file).1
          frame_mmap := (convert_inplace (create_converter frame_format.format) mem_file).2 })
  | none => Except.ok none

/-- Embeds the `read_frame` dispatch loop over a finite trace: each entry
is the terminal notification (if any) delivered by that dispatch
iteration; `none` as overall result models the loop still spinning after
the trace is exhausted. -/
def read_frame : List (Option FrameState) → FrameDescription → List Nat →
    Option (Except ReadFrameError Frame)
  | [], _, _ => none
  | st :: rest, ff, mem =>
      match try_read_frame st ff mem with
      | Except.error e => some (Except.error e)
      | Except.ok (some f) => some (Except.ok f)
      | Except.ok none => read_frame rest ff mem

/-- The first terminal notification delivered in a dispatch trace. -/
def firstTerminalEvent : List (Option FrameState) → Option FrameState
  | [] => none
  | some s :: _ => some s
  | none :: rest => firstTerminalEvent rest

/-- The frame produced on the `Finished` path. -/
def finishedFrame (ff : FrameDescription) (mem : List Nat) : Frame :=
  { frame_format := ff
    frame_color_type := (convert_inplace (create_converter ff.format) mem).1
    frame_mmap := (convert_inplace (create_converter ff.format) mem).2 }

/-- `read_frame` is fully determined by the first terminal notification
of the trace. -/
theorem read_frame_eq_firstTerminal :
    ∀ (trace : List (Option FrameState)) (ff : FrameDescription) (mem : List Nat),
      read_frame trace ff mem =
        match firstTerminalEvent trace with
        | none => none
        | some FrameState.Failed => some (Except.error ReadFrameError.FrameCopy)
        | some FrameState.Finished => some (Except.ok (finishedFrame ff mem))
  | [], _, _ => rfl
  | none :: rest, ff, mem => by
      simp only [read_frame, try_read_frame, firstTerminalEvent]
      exact read_frame_eq_firstTerminal rest ff mem
  | some FrameState.Failed :: rest, ff, mem => rfl
  | some FrameState.Finished :: rest, ff, mem => rfl

/-- Claim C6: a dispatch iteration that observes no terminal notification
yields no result and the loop continues; a Ready notification (state
`Finished`) is the only way the wait returns a frame, and a Failed
notification is the only way it returns an error — the error is then
`FrameCopy` (the spec's CaptureFailed) and no partial frame is produced. -/
theorem read_frame_terminal_behavior :
    ∀ (trace : List (Option FrameState)) (ff : FrameDescription) (mem : List Nat),
      (read_frame (none :: trace) ff mem = read_frame trace ff mem) ∧
      (read_frame trace ff mem = none ↔ firstTerminalEvent trace = none) ∧
      ((∃ f, read_frame trace ff mem = some (Except.ok f)) ↔
        firstTerminalEvent trace = some FrameState.Finished) ∧
      (read_frame trace ff mem = some (Except.error ReadFrameError.FrameCopy) ↔
        firstTerminalEvent trace = some FrameState.Failed) := by
  intro trace ff mem
  have hkey := read_frame_eq_firstTerminal trace ff mem
  refine ⟨?_, ?_, ?_, ?_⟩
  · simp only [read_frame, try_read_frame]
  · rw [hkey]; cases h : firstTerminalEvent trace with
    | none => simp
    | some s => cases s <;> simp
  · rw [hkey]; cases h : firstTerminalEvent trace with
    | none => simp
    | some s => cases s <;> simp
  · rw [hkey]; cases h : firstTerminalEvent trace with
    | none => simp
    | some s => cases s <;> simp

/-- Witness for C6: a trace whose first terminal notification is Failed
yields exactly the FrameCopy error. -/
theorem read_frame_terminal_behavior_witness :
    read_frame [none, some FrameState.Failed]
        (FrameDescription.mk FrameFormat.Xrgb8888 1920 1080 7680) [] =
      some (Except.error ReadFrameError.FrameCopy) :=
  (read_frame_terminal_behavior [none, some FrameState.Failed]
    (FrameDescription.mk FrameFormat.Xrgb8888 1920 1080 7680) []).2.2.2.mpr rfl

/-! Geometry and output resolution (`src/platform/mod.rs`,
`src/gui_backend.rs`). -/

/-- Embeds `Output` from `src/platform/mod.rs` (all coordinate fields are
`i32` in the source, modelled as `Int`). -/
structure Output where
  name : String
  x : Int
  y : Int
  width : Int
  height : Int
  scale : Int
deriving DecidableEq

/-- Embeds `Region` from `src/platform/mod.rs`. -/
structure Region where
  x : Int
  y : Int
  width : Int
  height : Int
deriving DecidableEq

/-- Modelled from the spec: `Region::new` is called in
`src/gui_backend.rs` and `src/platform/sway.rs` but its implementation is
not under src/; it is the evident constructor of the four fields. -/
def Region.new (x y width height : Int) : Region :=
  { x := x, y := y, width := width, height := height }

/-- Modelled from the spec: `Region::contains` is called in
`src/gui_backend.rs` (`find_output_from_region`) but its implementation is
not under src/.  The spec defines it: "region A contains region B iff B's
four corners lie within A's bounds." -/
def Region.contains (a b : Region) : Bool :=
  (decide (a.x ≤ b.x) && decide (b.x ≤ a.x + a.width) &&
     decide (a.y ≤ b.y) && decide (b.y ≤ a.y + a.height)) &&
  (decide (a.x ≤ b.x + b.width) && decide (b.x + b.width ≤ a.x + a.width) &&
     decide (a.y ≤ b.y) && decide (b.y ≤ a.y + a.height)) &&
  (decide (a.x ≤ b.x) && decide (b.x ≤ a.x + a.width) &&
     decide (a.y ≤ b.y + b.height) && decide (b.y + b.height ≤ a.y + a.height)) &&
  (decide (a.x ≤ b.x + b.width) && decide (b.x + b.width ≤ a.x + a.width) &&
     decide (a.y ≤ b.y + b.height) && decide (b.y + b.height ≤ a.y + a.height))

/-- Errors of `get_output` in `src/gui_backend.rs`: `NotFound` is
`bail!("No output named .. found!")`, `NoOutputs` is
`bail!("No output found!")`. -/
inductive GetOutputError
  | NotFound
  | NoOutputs
deriving DecidableEq

/-- Embeds the name-matching loop of `get_output`: the first output whose
name equals the requested name. -/
def findOutputByName (name : String) : List Output → Option Output
  | [] => none
  | o :: rest => if o.name = name then some o else findOutputByName name rest

/-- Embeds `get_output` from `src/gui_backend.rs`: with a name, find the
exact match or fail `NotFound`; without a name, take the first output or
fail when none exist. -/
def get_output (output_name : Option String) (outputs : List Output) :
    Except GetOutputError Output :=
  match output_name with
  | some name =>
      match findOutputByName name outputs with
      | some o => Except.ok o
      | none => Except.error GetOutputError.NotFound
  | none =>
      match outputs with
      | [] => Except.error GetOutputError.NoOutputs
      | o :: _ => Except.ok o

/-- First-match behaviour of the name search. -/
theorem findOutputByName_of_forall_ne :
    ∀ (outputs : List Output) (name : String),
      (∀ o ∈ outputs, o.name ≠ name) → findOutputByName name outputs = none
  | [], _, _ => rfl
  | o :: rest, name, h => by
      simp only [findOutputByName, if_neg (h o (by simp))]
      exact findOutputByName_of_forall_ne rest name (fun o2 h2 => h o2 (by simp [h2]))

/-- A uniquely named member is found by the name search. -/
theorem findOutputByName_unique :
    ∀ (outputs : List Output) (name : String) (o : Output),
      o ∈ outputs → o.name = name →
      (∀ o2 ∈ outputs, o2.name = name → o2 = o) →
      findOutputByName name outputs = some o
  | [], _, _, hmem, _, _ => by simp at hmem
  | hd :: rest, name, o, hmem, hname, huniq => by
      by_cases hhd : hd.name = name
      · simp only [findOutputByName, if_pos hhd]
        exact congrArg some (huniq hd (by simp) hhd)
      · simp only [findOutputByName, if_neg hhd]
        have hmem' : o ∈ rest := by
          rcases List.mem_cons.mp hmem with h | h
          · exact absurd (h ▸ hname) hhd
          · exact h
        exact findOutputByName_unique rest name o hmem' hname
          (fun o2 h2 => huniq o2 (by simp [h2]))

/-- Claim C8: output resolution — with a name, the unique exact match is
returned and a missing name fails NotFound; with no name, the first
output is returned and an empty list fails; concretely, for outputs
`["DP-1", "eDP-1"]` name "DP-1" resolves to that output, name "HDMI-1"
fails NotFound, and no name resolves to "DP-1". -/
theorem get_output_resolution :
    (∀ (outputs : List Output) (name : String),
       ((∀ o ∈ outputs, o.name ≠ name) →
         get_output (some name) outputs = Except.error GetOutputError.NotFound) ∧
       (∀ o, o ∈ outputs → o.name = name →
         (∀ o2 ∈ outputs, o2.name = name → o2 = o) →
         get_output (some name) outputs = Except.ok o) ∧
       (outputs = [] → get_output none outputs = Except.error GetOutputError.NoOutputs) ∧
       (∀ o rest, outputs = o :: rest → get_output none outputs = Except.ok o)) ∧
    get_output (some "DP-1") [Output.mk "DP-1" 0 0 1920 1080 1, Output.mk "eDP-1" 1920 0 1920 1080 1] =
      Except.ok (Output.mk "DP-1" 0 0 1920 1080 1) ∧
    get_output (some "HDMI-1") [Output.mk "DP-1" 0 0 1920 1080 1, Output.mk "eDP-1" 1920 0 1920 1080 1] =
      Except.error GetOutputError.NotFound ∧
    get_output none [Output.mk "DP-1" 0 0 1920 1080 1, Output.mk "eDP-1" 1920 0 1920 1080 1] =
      Except.ok (Output.mk "DP-1" 0 0 1920 1080 1) := by
  refine ⟨fun outputs name => ⟨?_, ?_, ?_, ?_⟩, rfl, rfl, rfl⟩
  · intro h
    simp only [get_output, findOutputByName_of_forall_ne outputs name h]
  · intro o hmem hname huniq
    simp only [get_output, findOutputByName_unique outputs name o hmem hname huniq]
  · rintro rfl; rfl
  · rintro o rest rfl; rfl

/-- Witness for C8: resolving no name on a concrete single-output list
returns that first output. -/
theorem get_output_resolution_witness :
    get_output none [Output.mk "HDMI-A-1" 0 0 800 600 1] =
      Except.ok (Output.mk "HDMI-A-1" 0 0 800 600 1) :=
  (get_output_resolution.1 [Output.mk "HDMI-A-1" 0 0 800 600 1] "HDMI-A-1").2.2.2
    (Output.mk "HDMI-A-1" 0 0 800 600 1) [] rfl

/-! Region handling in `capture_frame` (`src/platform/sway.rs` lines
186-209) and `find_output_from_region` (`src/gui_backend.rs`). -/

/-- The capture request issued by `capture_frame`: either
`capture_output_region` with the translated region fields, or
`capture_output` for the whole output. -/
inductive CaptureRequest
  | wholeOutput (overlayCursor : Bool)
  | regionCapture (overlayCursor : Bool) (x y width height : Int)
deriving DecidableEq

/-- Embeds the region branch of `capture_frame`: with a region, issue
`capture_output_region(overlay_cursor, output, region.x - output.x,
region.y - output.y, region.width, region.height)`; without one, issue
`capture_output(overlay_cursor, output)`.  No validation of the region is
performed on this path. -/
def captureRequestOf (output : Output) (overlayCursor : Bool) :
    Option Region → CaptureRequest
  | some region =>
      CaptureRequest.regionCapture overlayCursor
        (region.x - output.x) (region.y - output.y) region.width region.height
  | none => CaptureRequest.wholeOutput overlayCursor

/-- Error of `find_output_from_region`:
`bail!("Did not find Output for given Region")`. -/
inductive FindOutputError
  | NoMatch
deriving DecidableEq

/-- Embeds `find_output_from_region` from `src/gui_backend.rs`: the first
output whose bounding rectangle contains the region, else an error. -/
def find_output_from_region (region : Region) :
    List Output → Except FindOutputError Output
  | [] => Except.error FindOutputError.NoMatch
  | o :: rest =>
      if Region.contains (Region.new o.x o.y o.width o.height) region then
        Except.ok o
      else
        find_output_from_region region rest

/-- Counterexample for claim C7: `capture_frame` never fails with
InvalidRegion — a degenerate region (width = 0, height = 0) and a region
far outside the output's bounds both produce a translated capture request
instead of an error. -/
theorem capture_frame_skips_region_validation :
    captureRequestOf (Output.mk "DP-1" 0 0 1920 1080 1) false
        (some (Region.mk 10 10 0 0)) =
      CaptureRequest.regionCapture false 10 10 0 0 ∧
    captureRequestOf (Output.mk "DP-1" 0 0 1920 1080 1) false
        (some (Region.mk 2000 0 100 100)) =
      CaptureRequest.regionCapture false 2000 0 100 100 ∧
    Region.contains (Region.new 0 0 1920 1080) (Region.mk 2000 0 100 100) = false := by
  refine ⟨rfl, rfl, by decide⟩

/-- Claim C7 (amended): `capture_frame` performs no region validation —
every supplied region is unconditionally translated by subtracting the
output's x and y and issued as the capture request; containment is
enforced only by the window-capture caller through
`find_output_from_region`, which returns the first output whose bounds
contain the region and fails when none does; non-degeneracy is never
checked. -/
theorem capture_region_translation_and_containment :
    ∀ (output : Output) (overlayCursor : Bool) (region : Region)
      (outputs : List Output),
      (captureRequestOf output overlayCursor (some region) =
        CaptureRequest.regionCapture overlayCursor
          (region.x - output.x) (region.y - output.y) region.width region.height) ∧
      (captureRequestOf output overlayCursor none =
        CaptureRequest.wholeOutput overlayCursor) ∧
      (∀ o, find_output_from_region region outputs = Except.ok o →
        o ∈ outputs ∧
        Region.contains (Region.new o.x o.y o.width o.height) region = true) ∧
      ((∀ o ∈ outputs,
          Region.contains (Region.new o.x o.y o.width o.height) region = false) →
        find_output_from_region region outputs = Except.error FindOutputError.NoMatch) := by
  intro output overlayCursor region outputs
  refine ⟨rfl, rfl, ?_, ?_⟩
  · induction outputs with
    | nil => intro o h; exact absurd h (by simp [find_output_from_region])
    | cons hd rest ih =>
        intro o h
        by_cases hc : Region.contains (Region.new hd.x hd.y hd.width hd.height) region = true
        · simp only [find_output_from_region, if_pos hc] at h
          cases h
          exact ⟨by simp, hc⟩
        · simp only [find_output_from_region, if_neg hc] at h
          obtain ⟨hmem, hcont⟩ := ih o h
          exact ⟨by simp [hmem], hcont⟩
  · induction outputs with
    | nil => intro _; rfl
    | cons hd rest ih =>
        intro h
        have hhd := h hd (by simp)
        simp only [find_output_from_region, hhd]
        simp only [Bool.false_eq_true, if_false]
        exact ih (fun o ho => h o (by simp [ho]))

/-- Witness for C7's amended theorem: the translation at a concrete
output and region, and the failure of containment search on an empty
output list. -/
theorem capture_region_translation_and_containment_witness :
    find_output_from_region (Region.mk 5 5 10 10) [] =
      Except.error FindOutputError.NoMatch :=
  (capture_region_translation_and_containment (Output.mk "DP-1" 0 0 1920 1080 1)
    false (Region.mk 5 5 10 10) []).2.2.2 (by simp)

/-! The shared-memory fallback (`create_shm_fd` in `src/platform/sway.rs`
lines 483-523). -/

/-- Errno values relevant to the `shm_open` fallback loop. -/
inductive Errno
  | EEXIST
  | EINTR
  | EACCES
  | EMFILE
  | ENOSYS
deriving DecidableEq

/-- One host response to an `shm_open` attempt: the open result, and (when
the open succeeded) whether the immediate `shm_unlink` and — if that
failed — the `close` reported an error. -/
structure ShmOpenAttempt where
  openResult : Except Errno Nat
  unlinkError : Option Errno
  closeError : Option Errno

/-- Embeds the generated shared-memory object name
`format!("/wayshot-{}", sys_time.duration_since(UNIX_EPOCH).unwrap().subsec_nanos())`;
the argument is the captured `sys_time`'s nanosecond part, fixed before
the loop starts. -/
def mkShmName (subsecNanos : Nat) : String := "/wayshot-" ++ Nat.repr subsecNanos

/-- Embeds the `shm_open` fallback loop of `create_shm_fd`, driven by a
finite list of host responses.  Returns the list of names used by the
successive open attempts together with the loop's result (`none` when the
response list is exhausted with the loop still spinning).  On `EEXIST` the
source regenerates `mem_file_handle` from the same captured `sys_time`;
on `EINTR` it retries the same handle; on success it unlinks the name at
once, closing the fd and propagating the errno if the unlink fails; any
other errno is returned to the caller. -/
def shm_open_loop (sysTimeNanos : Nat) (memFileHandle : String) :
    List ShmOpenAttempt → List String × Option (Except Errno Nat)
  | [] => ([], none)
  | a :: rest =>
      match a.openResult with
      | Except.ok fd =>
          match a.unlinkError with
          | none => ([memFileHandle], some (Except.ok fd))
          | some e =>
              match a.closeError with
              | none => ([memFileHandle], some (Except.error e))
              | some e2 => ([memFileHandle], some (Except.error e2))
      | Except.error Errno.EEXIST =>
          (memFileHandle :: (shm_open_loop sysTimeNanos (mkShmName sysTimeNanos) rest).1,
            (shm_open_loop sysTimeNanos (mkShmName sysTimeNanos) rest).2)
      | Except.error Errno.EINTR =>
          (memFileHandle :: (shm_open_loop sysTimeNanos memFileHandle rest).1,
            (shm_open_loop sysTimeNanos memFileHandle rest).2)
      | Except.error e => ([memFileHandle], some (Except.error e))

/-- Embeds the fallback path of `create_shm_fd`: the initial handle is
generated from the captured `sys_time` and the loop is entered. -/
def create_shm_fd (sysTimeNanos : Nat) (attempts : List ShmOpenAttempt) :
    List String × Option (Except Errno Nat) :=
  shm_open_loop sysTimeNanos (mkShmName sysTimeNanos) attempts

/-- Claim C9 (code bug evidence): after an `EEXIST` collision the retry
regenerates the handle from the same captured `sys_time`, so the next
open attempt uses the identical name rather than a distinct fresh one;
the unlink-after-open and error-propagation parts of the claim do hold. -/
theorem shm_retry_reuses_colliding_name :
    (create_shm_fd 123 [ShmOpenAttempt.mk (Except.error Errno.EEXIST) none none,
        ShmOpenAttempt.mk (Except.ok 7) none none]).1 =
      [mkShmName 123, mkShmName 123] ∧
    (create_shm_fd 123 [ShmOpenAttempt.mk (Except.error Errno.EEXIST) none none,
        ShmOpenAttempt.mk (Except.ok 7) none none]).2 =
      some (Except.ok 7) ∧
    (∀ (nanos : Nat) (rest : List ShmOpenAttempt),
      (create_shm_fd nanos (ShmOpenAttempt.mk (Except.error Errno.EEXIST) none none :: rest)).1 =
        mkShmName nanos :: (shm_open_loop nanos (mkShmName nanos) rest).1) ∧
    (∀ (nanos fd : Nat) (rest : List ShmOpenAttempt),
      (create_shm_fd nanos (ShmOpenAttempt.mk (Except.ok fd) none none :: rest)).2 =
        some (Except.ok fd)) ∧
    (∀ (nanos fd : Nat) (e : Errno) (rest : List ShmOpenAttempt),
      (create_shm_fd nanos (ShmOpenAttempt.mk (Except.ok fd) (some e) none :: rest)).2 =
        some (Except.error e)) ∧
    (∀ (nanos : Nat) (e : Errno) (rest : List ShmOpenAttempt),
      (e = Errno.EACCES ∨ e = Errno.EMFILE) →
      (create_shm_fd nanos (ShmOpenAttempt.mk (Except.error e) none none :: rest)).2 =
        some (Except.error e)) := by
  refine ⟨rfl, rfl, fun nanos rest => rfl, fun nanos fd rest => rfl,
    fun nanos fd e rest => rfl, ?_⟩
  rintro nanos e rest (rfl | rfl) <;> rfl

/-- Witness for C9: a non-retryable errno (EACCES) is propagated to the
caller. -/
theorem shm_retry_reuses_colliding_name_witness :
    (create_shm_fd 9 [ShmOpenAttempt.mk (Except.error Errno.EACCES) none none]).2 =
      some (Except.error Errno.EACCES) :=
  shm_retry_reuses_colliding_name.2.2.2.2.2 9 Errno.EACCES [] (Or.inl rfl)

end Scrcap
